import Mathlib

/-!
Verification development for the Medical Desert Tracker backend
(`backend/server.py`): a shallow embedding of the retrieval service,
the chat endpoint with multi-turn memory, the region-level desert
analysis, and the text2sql endpoint, together with theorems about them.

Conventions of the embedding:
* machine floats (similarity scores) are modelled as rationals `ℚ`;
* the sentence-transformers encoder is an opaque parameter
  `encode : String → List ℚ` carried in the retrieval state;
* the FAISS `IndexFlatIP.search` call is modelled by its documented
  behaviour: exact inner products against every stored vector, returned
  in descending-score order, padded with index `-1` entries when the
  index holds fewer than `k` vectors;
* MongoDB collections are modelled as Lean lists in insertion order;
  `find(...).sort(...)` is modelled by a stable sort on the sort key;
* fallible Python code is modelled with `Option` / `Except`.
-/

namespace VFServer

/-- One element of the list returned by `search_similar`
(`server.py`, lines 176-180): a facility id, the indexed passage text,
and the similarity score. -/
structure SearchResult where
  facility_id : String
  text : String
  score : ℚ
deriving Repr, DecidableEq

/-- The process-wide retrieval globals of `server.py` (lines 48-53):
the optional FAISS index (a bag of stored embedding vectors), the
parallel arrays `facility_texts` / `facility_ids`, and the encoder. -/
structure RagState where
  faiss_index : Option (List (List ℚ))
  facility_texts : List String
  facility_ids : List String
  encode : String → List ℚ

/-- Inner product of two embedding vectors. -/
def dot (a b : List ℚ) : ℚ :=
  (List.zipWith (· * ·) a b).sum

/-- Descending-score order on FAISS result pairs `(index, score)`. -/
def scoreGe (a b : Int × ℚ) : Prop := b.2 ≤ a.2

instance : DecidableRel scoreGe :=
  fun a b => inferInstanceAs (Decidable (b.2 ≤ a.2))

instance : IsTotal (Int × ℚ) scoreGe :=
  ⟨fun a b => le_total b.2 a.2⟩

instance : IsTrans (Int × ℚ) scoreGe :=
  ⟨fun _ _ _ hab hbc => le_trans hbc hab⟩

/-- The raw `(index, inner-product score)` pairs of a query against
every vector stored in the index. -/
def searchPairs (index : List (List ℚ)) (q : List ℚ) : List (Int × ℚ) :=
  index.enum.map (fun p => ((p.1 : Int), dot q p.2))

/-- Model of `faiss_index.search(query_vec, top_k)`
(`server.py`, line 171): the `top_k` best inner products in descending
order; when fewer than `top_k` vectors are stored, FAISS pads the
output with index `-1` (and a sentinel score). -/
def faissSearch (index : List (List ℚ)) (q : List ℚ) (k : Nat) : List (Int × ℚ) :=
  let sorted := (searchPairs index q).insertionSort scoreGe
  let top := sorted.take k
  top ++ List.replicate (k - top.length) ((-1 : Int), (-1 : ℚ))

/-- The per-hit filter of `search_similar` (`server.py`, line 175):
keep a hit only if its index is in bounds for `facility_texts` and its
score is strictly positive, and build the result record from the
parallel arrays. -/
def searchFilter (st : RagState) (p : Int × ℚ) : Option SearchResult :=
  if 0 ≤ p.1 ∧ p.1.toNat < st.facility_texts.length ∧ 0 < p.2 then
    some { facility_id := st.facility_ids.getD p.1.toNat ""
         , text := st.facility_texts.getD p.1.toNat ""
         , score := p.2 }
  else none

/-- `search_similar(query, top_k)` (`server.py`, lines 166-181):
returns `[]` when the index has not been built; otherwise encodes the
query, searches the FAISS index, and keeps the in-bounds hits with
strictly positive score. -/
def search_similar (st : RagState) (query : String) (top_k : Nat) : List SearchResult :=
  match st.faiss_index with
  | none => []
  | some index =>
      (faissSearch index (st.encode query) top_k).filterMap (searchFilter st)

lemma searchFilter_some {st : RagState} {p : Int × ℚ} {x : SearchResult}
    (h : searchFilter st p = some x) : x.score = p.2 ∧ 0 < p.2 := by
  unfold searchFilter at h
  split at h
  · rename_i hc
    cases h
    exact ⟨rfl, hc.2.2⟩
  · exact Option.noConfusion h

lemma searchFilter_pad (st : RagState) :
    searchFilter st ((-1 : Int), (-1 : ℚ)) = none := by
  unfold searchFilter
  rw [if_neg]
  intro hc
  exact absurd hc.1 (by decide)

lemma filterMap_replicate_none {α β : Type _} {f : α → Option β} {a : α}
    (h : f a = none) (n : Nat) : (List.replicate n a).filterMap f = [] := by
  induction n with
  | zero => rfl
  | succ m ih => simp [List.replicate_succ, List.filterMap_cons, h, ih]

/-- A `RagState` whose index was never built. -/
def emptyRag : RagState :=
  { faiss_index := none, facility_texts := [], facility_ids := [], encode := fun _ => [] }

/-- A tiny concrete built `RagState` used by witnesses: one stored
vector, and an encoder that ignores the query. -/
def tinyRag : RagState :=
  { faiss_index := some [[1]]
  , facility_texts := ["passage A"]
  , facility_ids := ["GH-0001"]
  , encode := fun _ => [1] }

lemma tinyRag_eval : search_similar tinyRag "q" 2 = [⟨"GH-0001", "passage A", 1⟩] := by
  simp [search_similar, tinyRag, faissSearch, searchPairs, dot, searchFilter, scoreGe,
    List.insertionSort, List.orderedInsert, List.filterMap_cons]

/-- C1: for every free-text query and every result count `k`,
`search_similar` returns at most `k` (facility id, passage text, score)
triples, every returned triple has score strictly greater than `0`, and
the triples are ordered by descending score. -/
theorem c1_retrieval_topk_positive_sorted (st : RagState) (query : String) (k : Nat) :
    (search_similar st query k).length ≤ k ∧
    (∀ x ∈ search_similar st query k, 0 < x.score) ∧
    List.Sorted (fun a b : SearchResult => b.score ≤ a.score) (search_similar st query k) := by
  cases hst : st.faiss_index with
  | none =>
      refine ⟨?_, ?_, ?_⟩ <;> simp [search_similar, hst]
  | some index =>
      have hss : search_similar st query k =
          (faissSearch index (st.encode query) k).filterMap (searchFilter st) := by
        simp [search_similar, hst]
      rw [hss]
      simp only [faissSearch]
      rw [List.filterMap_append, filterMap_replicate_none (searchFilter_pad st),
        List.append_nil]
      have hsorted : List.Sorted scoreGe
          (((searchPairs index (st.encode query)).insertionSort scoreGe).take k) :=
        (List.sorted_insertionSort scoreGe _).sublist (List.take_sublist k _)
      refine ⟨?_, ?_, ?_⟩
      · exact le_trans (List.length_filterMap_le _ _) (List.length_take_le k _)
      · intro x hx
        obtain ⟨p, _, hfp⟩ := List.mem_filterMap.mp hx
        have h := searchFilter_some hfp
        rw [h.1]
        exact h.2
      · show List.Pairwise _ _
        refine List.pairwise_filterMap.mpr (hsorted.imp ?_)
        intro a b hab x hx y hy
        rw [(searchFilter_some (Option.mem_def.mp hx)).1,
          (searchFilter_some (Option.mem_def.mp hy)).1]
        exact hab

/-- Witness for C1 at a concrete built index: the positive-score part of
the theorem applied to the one result of a concrete search. -/
theorem c1_witness :
    (⟨"GH-0001", "passage A", (1 : ℚ)⟩ : SearchResult) ∈ search_similar tinyRag "q" 2 ∧
    (0 : ℚ) < (1 : ℚ) :=
  ⟨by simp [tinyRag_eval], (c1_retrieval_topk_positive_sorted tinyRag "q" 2).2.1
    ⟨"GH-0001", "passage A", (1 : ℚ)⟩ (by simp [tinyRag_eval])⟩

/-- C2: for every query, if the vector index has not been built
(`faiss_index is None`), `search_similar` returns the empty list
(and, being total, raises no error). -/
theorem c2_unbuilt_index_empty (st : RagState) (query : String) (k : Nat)
    (h : st.faiss_index = none) : search_similar st query k = [] := by
  simp [search_similar, h]

/-- Witness for C2 at the concrete unbuilt state. -/
theorem c2_witness : search_similar emptyRag "any query" 5 = [] :=
  c2_unbuilt_index_empty emptyRag "any query" 5 rfl

/-! ## Chat endpoint with multi-turn memory (`server.py`, lines 513-705)

The MongoDB `chat_history` collection is a list of turns in insertion
order; `find(...).sort("created_at", -1).to_list(5)` is a stable sort
on the timestamp.  The MLflow tracker is an abstract world: each call
either succeeds or raises, and every call is wrapped in
`try/except: pass` in the source, so only `run.info.run_id` (from a
successful `start_run`) can flow into the response.  The LLM call is
an abstract `Except`: `.ok text` for a reply, `.error msg` for a raised
exception.  The assembled system prompt flows only into that abstract
call, so its text is not tracked. -/

/-- A citation attached to a chat answer (`server.py`, lines 593-597). -/
structure Citation where
  source_id : String
  text_excerpt : String
  relevance_score : ℚ
deriving Repr, DecidableEq

/-- The `data_used` field of a reasoning step is a string for most
steps and a list of facility ids for the semantic-search step. -/
inductive DataUsed where
  | text (s : String)
  | ids (l : List String)
deriving Repr, DecidableEq

/-- One reasoning step of the fixed-length trace. -/
structure ReasoningStep where
  step : Nat
  action : String
  detail : String
  data_used : DataUsed
deriving Repr, DecidableEq

/-- One stored turn of the `chat_history` collection
(`server.py`, lines 668-676). -/
structure ChatTurn where
  session_id : String
  message : String
  response : String
  citations : List Citation
  reasoning_steps : List ReasoningStep
  mlflow_run_id : Option String
  created_at : Nat
deriving Repr, DecidableEq

/-- Mongo descending sort key `("created_at", -1)`. -/
def turnRecent (a b : ChatTurn) : Prop := b.created_at ≤ a.created_at

instance : DecidableRel turnRecent :=
  fun a b => inferInstanceAs (Decidable (b.created_at ≤ a.created_at))

instance : IsTotal ChatTurn turnRecent :=
  ⟨fun a b => Nat.le_total b.created_at a.created_at⟩

instance : IsTrans ChatTurn turnRecent :=
  ⟨fun _ _ _ hab hbc => le_trans hbc hab⟩

/-- Mongo ascending sort key `("created_at", 1)`. -/
def turnChrono (a b : ChatTurn) : Prop := a.created_at ≤ b.created_at

instance : DecidableRel turnChrono :=
  fun a b => inferInstanceAs (Decidable (a.created_at ≤ b.created_at))

instance : IsTotal ChatTurn turnChrono :=
  ⟨fun a b => Nat.le_total a.created_at b.created_at⟩

instance : IsTrans ChatTurn turnChrono :=
  ⟨fun _ _ _ hab hbc => le_trans hab hbc⟩

/-- The turns of one session: `find({"session_id": session_id})`. -/
def sessionTurns (store : List ChatTurn) (sid : String) : List ChatTurn :=
  store.filter (fun t => t.session_id == sid)

/-- The memory-retrieval read of the chat endpoint
(`server.py`, lines 547-550): the session turns sorted by `created_at`
descending, limited to `5`, then reversed into chronological order. -/
def loadHistory (store : List ChatTurn) (sid : String) : List ChatTurn :=
  (((sessionTurns store sid).insertionSort turnRecent).take 5).reverse

/-- `GET /api/chat/history/{session_id}` (`server.py`, lines 700-705):
the session turns sorted by `created_at` ascending, limited to `100`. -/
def get_chat_history (store : List ChatTurn) (sid : String) : List ChatTurn :=
  ((sessionTurns store sid).insertionSort turnChrono).take 100

/-- The `ChatRequest` pydantic model. -/
structure ChatRequest where
  message : String
  session_id : Option String
deriving Repr, DecidableEq

/-- The `ChatResponse` pydantic model. -/
structure ChatResponse where
  response : String
  citations : List Citation
  reasoning_steps : List ReasoningStep
  session_id : String
  mlflow_run_id : Option String
deriving Repr, DecidableEq

/-- The abstract MLflow tracker: whether `start_run` succeeds (and the
run id it would return), and whether the parameter/metric/artifact
logging calls succeed.  Every use in the source is wrapped in
`try/except: pass`, so these flags stand for "call raised or not". -/
structure MlflowWorld where
  startOk : Bool
  runId : String
  logOk : Bool
deriving Repr, DecidableEq

/-- The per-request external world of the chat endpoint: the LLM call
outcome, the MLflow world, the fresh uuid-based session id used when
the request carries none, the insertion timestamp, and the measured
latencies that are interpolated into step details. -/
structure ChatExternals where
  llm : Except String String
  mlf : MlflowWorld
  freshSid : String
  now : Nat
  searchMs : Nat
  llmMs : Nat

/-- A single-quote character as a string (used in a step detail). -/
def sq : String := String.singleton (Char.ofNat 39)

/-- `session_id = req.session_id or f"chat_{uuid...}"`
(`server.py`, line 516): Python `or` replaces both `None` and the empty
string by the fresh id. -/
def resolveSid (req : ChatRequest) (ext : ChatExternals) : String :=
  match req.session_id with
  | some s => if s = "" then ext.freshSid else s
  | none => ext.freshSid

/-- The memory-retrieval reasoning step (`server.py`, lines 552-570):
reports how many prior turns were loaded, or that the session is new. -/
def memoryStep (h : List ChatTurn) : ReasoningStep :=
  if h.isEmpty then
    { step := 2, action := "Memory Retrieval"
    , detail := "No previous conversation history (new session)"
    , data_used := .text "None" }
  else
    { step := 2, action := "Memory Retrieval"
    , detail := "Loaded " ++ toString h.length ++ " previous conversation turns for context"
    , data_used := .text (toString h.length ++ " chat history messages") }

/-- The document inserted into `chat_history` by one chat request
(`server.py`, lines 668-676), carrying every value that also builds the
response. -/
def chatNewTurn (rag : RagState) (store : List ChatTurn) (req : ChatRequest)
    (ext : ChatExternals) : ChatTurn :=
  let session_id := resolveSid req ext
  let run_id : Option String := if ext.mlf.startOk then some ext.mlf.runId else none
  let history_docs := loadHistory store session_id
  let search_results := search_similar rag req.message 5
  let step1 : ReasoningStep :=
    { step := 1, action := "Query Analysis"
    , detail := "Analyzing user query: " ++ sq ++ req.message ++ sq
    , data_used := .text "User input" }
  let step3 : ReasoningStep :=
    { step := 3, action := "Semantic Search (FAISS + sentence-transformers)"
    , detail := "Retrieved " ++ toString search_results.length ++ " documents in "
        ++ toString ext.searchMs ++ "ms using sentence-transformers embeddings"
    , data_used := .ids (search_results.map (·.facility_id)) }
  let citations := search_results.map (fun r =>
    { source_id := r.facility_id
    , text_excerpt := r.text.take 200 ++ "..."
    , relevance_score := r.score : Citation })
  let step4 : ReasoningStep :=
    { step := 4, action := "Context Assembly"
    , detail := "Combined " ++ toString search_results.length ++ " retrieved docs + "
        ++ toString history_docs.length ++ " conversation turns + DB summary"
    , data_used := .text "FAISS results + memory + summary" }
  let gen : String × ReasoningStep :=
    match ext.llm with
    | .ok t =>
        (t, { step := 5, action := "LLM Generation (Gemini 2.5 Flash)"
            , detail := "Generated response in " ++ toString ext.llmMs ++ "ms using "
                ++ toString search_results.length ++ " context documents + conversation memory"
            , data_used := .text ("System prompt + " ++ toString search_results.length
                ++ " docs + " ++ toString history_docs.length ++ " memory turns") })
    | .error e =>
        ("Error processing query: " ++ e ++ ". Found "
            ++ toString search_results.length ++ " relevant records."
        , { step := 5, action := "LLM Generation - Error"
          , detail := "Error: " ++ e
          , data_used := .text "Fallback response" })
  { session_id := session_id
  , message := req.message
  , response := gen.1
  , citations := citations
  , reasoning_steps := [step1, memoryStep history_docs, step3, step4, gen.2]
  , mlflow_run_id := run_id
  , created_at := ext.now }

/-- `POST /api/chat` (`server.py`, lines 513-697): builds the response
and unconditionally appends the new turn to `chat_history`. -/
def chat_endpoint (rag : RagState) (store : List ChatTurn) (req : ChatRequest)
    (ext : ChatExternals) : ChatResponse × List ChatTurn :=
  let t := chatNewTurn rag store req ext
  ({ response := t.response
   , citations := t.citations
   , reasoning_steps := t.reasoning_steps
   , session_id := t.session_id
   , mlflow_run_id := t.mlflow_run_id }
  , store ++ [t])

/-- Concrete externals with a failing LLM call and a failing tracker. -/
def failExt : ChatExternals :=
  { llm := .error "boom", mlf := { startOk := false, runId := "", logOk := false }
  , freshSid := "chat_fresh01", now := 0, searchMs := 0, llmMs := 0 }

/-- Concrete externals with a successful LLM call, at time `0`. -/
def okExtA : ChatExternals :=
  { llm := .ok "first reply", mlf := { startOk := true, runId := "run1", logOk := true }
  , freshSid := "chat_fresh02", now := 0, searchMs := 1, llmMs := 2 }

/-- Concrete externals with a successful LLM call, at a later time `7`. -/
def okExtB : ChatExternals :=
  { llm := .ok "second reply", mlf := { startOk := true, runId := "run2", logOk := true }
  , freshSid := "chat_fresh03", now := 7, searchMs := 1, llmMs := 2 }

/-- C5: for every chat request, if the external generation call raises,
the chat endpoint does not propagate the exception (the model is a
total function into `ChatResponse`); it returns a response whose text
is the fallback message reporting the length of the semantic-search
result list. -/
theorem c5_generation_failure_fallback (rag : RagState) (store : List ChatTurn)
    (req : ChatRequest) (ext : ChatExternals) (e : String)
    (h : ext.llm = Except.error e) :
    (chat_endpoint rag store req ext).1.response =
      "Error processing query: " ++ e ++ ". Found "
        ++ toString (search_similar rag req.message 5).length ++ " relevant records." := by
  simp [chat_endpoint, chatNewTurn, h]

/-- Witness for C5: a concrete failing generation call over the unbuilt
index yields the fallback message reporting zero records. -/
theorem c5_witness :
    (chat_endpoint emptyRag [] ⟨"hello", none⟩ failExt).1.response =
      "Error processing query: boom. Found 0 relevant records." := by
  rw [c5_generation_failure_fallback emptyRag [] ⟨"hello", none⟩ failExt "boom" rfl]
  rfl

/-- C6: MLflow tracing failures are swallowed and never affect the
primary response: for any two MLflow worlds (in particular, the actual
one and the all-successful one) the generated text, citations,
reasoning steps and session id of the response coincide; only the
optional `mlflow_run_id` can differ. -/
theorem c6_mlflow_failures_do_not_affect_response (rag : RagState)
    (store : List ChatTurn) (req : ChatRequest) (ext : ChatExternals)
    (mlf1 mlf2 : MlflowWorld) :
    (chat_endpoint rag store req { ext with mlf := mlf1 }).1.response =
      (chat_endpoint rag store req { ext with mlf := mlf2 }).1.response ∧
    (chat_endpoint rag store req { ext with mlf := mlf1 }).1.citations =
      (chat_endpoint rag store req { ext with mlf := mlf2 }).1.citations ∧
    (chat_endpoint rag store req { ext with mlf := mlf1 }).1.reasoning_steps =
      (chat_endpoint rag store req { ext with mlf := mlf2 }).1.reasoning_steps ∧
    (chat_endpoint rag store req { ext with mlf := mlf1 }).1.session_id =
      (chat_endpoint rag store req { ext with mlf := mlf2 }).1.session_id :=
  ⟨rfl, rfl, rfl, rfl⟩

/-- A minimal stored turn used by concrete witnesses. -/
def demoTurn (sid : String) (n : Nat) : ChatTurn :=
  { session_id := sid, message := "m", response := "r", citations := []
  , reasoning_steps := [], mlflow_run_id := none, created_at := n }

/-- A concrete `chat_history` collection with two turns of session `s1`
and one turn of session `s2`. -/
def demoStore : List ChatTurn :=
  [demoTurn "s1" 1, demoTurn "s1" 2, demoTurn "s2" 3]

/-- C3: the chat endpoint's memory-retrieval step reports exactly the
turns loaded by `loadHistory`; with no prior turns it reports a new
session (zero history); with `m ≤ 5` prior turns it loads exactly those
`m` turns in chronological order; with more than `5` it loads `5`
turns, chronological, and every loaded turn is at least as recent as
every session turn left out. -/
theorem c3_memory_window (store : List ChatTurn) (sid : String) (rag : RagState)
    (req : ChatRequest) (ext : ChatExternals)
    (hreq : req.session_id = some sid) (hsid : sid ≠ "") :
    ((chat_endpoint rag store req ext).1.reasoning_steps)[1]? =
      some (memoryStep (loadHistory store sid)) ∧
    (sessionTurns store sid = [] → loadHistory store sid = [] ∧
      memoryStep (loadHistory store sid) =
        { step := 2, action := "Memory Retrieval"
        , detail := "No previous conversation history (new session)"
        , data_used := .text "None" }) ∧
    (loadHistory store sid).length = min (sessionTurns store sid).length 5 ∧
    List.Sorted turnChrono (loadHistory store sid) ∧
    ((sessionTurns store sid).length ≤ 5 →
      List.Perm (loadHistory store sid) (sessionTurns store sid)) ∧
    (∀ x ∈ loadHistory store sid, ∀ y ∈ sessionTurns store sid,
      y ∉ loadHistory store sid → y.created_at ≤ x.created_at) := by
  have hres : resolveSid req ext = sid := by
    simp [resolveSid, hreq, hsid]
  have hsort : List.Sorted turnRecent ((sessionTurns store sid).insertionSort turnRecent) :=
    List.sorted_insertionSort turnRecent _
  have hperm : List.Perm ((sessionTurns store sid).insertionSort turnRecent)
      (sessionTurns store sid) := List.perm_insertionSort turnRecent _
  have hlen : ((sessionTurns store sid).insertionSort turnRecent).length
      = (sessionTurns store sid).length := List.length_insertionSort turnRecent _
  refine ⟨?_, ?_, ?_, ?_, ?_, ?_⟩
  · simp [chat_endpoint, chatNewTurn, hres]
  · intro h
    have hl : loadHistory store sid = [] := by simp [loadHistory, h]
    exact ⟨hl, by rw [hl]; rfl⟩
  · simp [loadHistory, hlen, Nat.min_comm]
  · have ht : ((((sessionTurns store sid).insertionSort turnRecent).take 5)).Pairwise
        turnRecent := hsort.sublist (List.take_sublist 5 _)
    show List.Pairwise turnChrono _
    rw [loadHistory, List.pairwise_reverse]
    exact ht.imp (fun h => h)
  · intro hm
    rw [loadHistory, List.take_of_length_le (le_trans (le_of_eq hlen) hm)]
    exact (List.reverse_perm _).trans hperm
  · intro x hx y hy hyn
    rw [loadHistory, List.mem_reverse] at hx hyn
    have hys : y ∈ (sessionTurns store sid).insertionSort turnRecent :=
      hperm.symm.subset hy
    rw [← List.take_append_drop 5 ((sessionTurns store sid).insertionSort turnRecent),
      List.mem_append] at hys
    rcases hys with hys | hys
    · exact absurd hys hyn
    · exact hsort.rel_of_mem_take_of_mem_drop hx hys

/-- Witness for C3 on a concrete three-turn store: session `s1` has two
prior turns and the loader reports both. -/
theorem c3_witness :
    (loadHistory demoStore "s1").length = min (sessionTurns demoStore "s1").length 5 :=
  (c3_memory_window demoStore "s1" emptyRag ⟨"m", some "s1"⟩ okExtA rfl
    (by decide)).2.2.1

/-- C8: every chat request appends exactly one turn to the store
(whatever the generation outcome, since the insert follows the
`try/except`); and posting two messages with the same non-empty session
id yields a second response whose memory step loaded exactly one turn,
while the history fetch returns the two stored turns in chronological
order. -/
theorem c8_append_one_turn_scenario :
    (∀ (rag : RagState) (store : List ChatTurn) (req : ChatRequest) (ext : ChatExternals),
      (chat_endpoint rag store req ext).2 = store ++ [chatNewTurn rag store req ext]) ∧
    (∀ (rag : RagState) (sid msg1 msg2 : String) (ext1 ext2 : ChatExternals),
      sid ≠ "" → ext1.now < ext2.now →
      (loadHistory (chat_endpoint rag [] ⟨msg1, some sid⟩ ext1).2 sid).length = 1 ∧
      ((chat_endpoint rag (chat_endpoint rag [] ⟨msg1, some sid⟩ ext1).2
          ⟨msg2, some sid⟩ ext2).1.reasoning_steps)[1]? =
        some { step := 2, action := "Memory Retrieval"
             , detail := "Loaded 1 previous conversation turns for context"
             , data_used := .text "1 chat history messages" } ∧
      get_chat_history (chat_endpoint rag (chat_endpoint rag [] ⟨msg1, some sid⟩ ext1).2
          ⟨msg2, some sid⟩ ext2).2 sid =
        [chatNewTurn rag [] ⟨msg1, some sid⟩ ext1,
         chatNewTurn rag (chat_endpoint rag [] ⟨msg1, some sid⟩ ext1).2
           ⟨msg2, some sid⟩ ext2] ∧
      (chatNewTurn rag [] ⟨msg1, some sid⟩ ext1).created_at <
        (chatNewTurn rag (chat_endpoint rag [] ⟨msg1, some sid⟩ ext1).2
          ⟨msg2, some sid⟩ ext2).created_at) := by
  constructor
  · intro rag store req ext
    rfl
  · intro rag sid msg1 msg2 ext1 ext2 hsid hlt
    have h2 : (chat_endpoint rag [] ⟨msg1, some sid⟩ ext1).2 =
        [chatNewTurn rag [] ⟨msg1, some sid⟩ ext1] := rfl
    set t1 := chatNewTurn rag [] ⟨msg1, some sid⟩ ext1 with ht1
    have ht1sid : t1.session_id = sid := by
      simp [ht1, chatNewTurn, resolveSid, hsid]
    have hload : loadHistory [t1] sid = [t1] := by
      simp [loadHistory, sessionTurns, ht1sid]
    set t2 := chatNewTurn rag [t1] ⟨msg2, some sid⟩ ext2 with ht2
    have ht2sid : t2.session_id = sid := by
      simp [ht2, chatNewTurn, resolveSid, hsid]
    have hchrono : turnChrono t1 t2 := le_of_lt hlt
    refine ⟨?_, ?_, ?_, ?_⟩
    · rw [h2, hload]
      rfl
    · rw [h2]
      have hres2 : resolveSid ⟨msg2, some sid⟩ ext2 = sid := by
        simp [resolveSid, hsid]
      simp [chat_endpoint, chatNewTurn, hres2, hload, memoryStep]
      exact ⟨rfl, rfl⟩
    · rw [h2]
      show get_chat_history ([t1] ++ [t2]) sid = [t1, t2]
      simp [get_chat_history, sessionTurns, ht1sid, ht2sid, hchrono]
    · exact hlt

/-- Witness for C8: the two-message scenario at concrete inputs. -/
theorem c8_witness :
    (loadHistory (chat_endpoint emptyRag [] ⟨"hi", some "s1"⟩ okExtA).2 "s1").length = 1 :=
  (c8_append_one_turn_scenario.2 emptyRag "s1" "hi" "again" okExtA okExtB
    (by decide) (by decide)).1

/-! ## Region-level desert analysis (`server.py`, lines 427-476)

`GET /api/analysis/medical-deserts` groups the facility corpus by
region (a Python dict in insertion order, modelled as an association
list), accumulates totals and capability flags, scores each region with
a fixed weighted rule table, clamps the score to `100`, labels the
severity, and sorts descending by score (Python's stable sort). -/

/-- A facility record, restricted to the fields the analysis reads. -/
structure Facility where
  name : String
  region : String
  beds : Nat
  staff_count : Nat
  specialties : List String
  equipment : List String
  services : List String
deriving Repr, DecidableEq

/-- The per-region accumulator of `get_medical_deserts`
(`server.py`, lines 436-440); the Python `set` of specialties is a
duplicate-free list (only its size is ever scored). -/
structure RegionAgg where
  region : String
  facilities : List String
  total_beds : Nat
  total_staff : Nat
  specialties : List String
  has_surgery : Bool
  has_icu : Bool
  has_ct_mri : Bool
  has_blood_bank : Bool
deriving Repr, DecidableEq

/-- The freshly-created accumulator for a region. -/
def emptyAgg (region : String) : RegionAgg :=
  { region := region, facilities := [], total_beds := 0, total_staff := 0
  , specialties := [], has_surgery := false, has_icu := false
  , has_ct_mri := false, has_blood_bank := false }

/-- Insert a specialty into the region's specialty set. -/
def addSpecialty (acc : List String) (s : String) : List String :=
  if s ∈ acc then acc else acc ++ [s]

/-- Fold one facility into its region's accumulator
(`server.py`, lines 441-454). -/
def updateAgg (r : RegionAgg) (fac : Facility) : RegionAgg :=
  { r with
    facilities := r.facilities ++ [fac.name]
  , total_beds := r.total_beds + fac.beds
  , total_staff := r.total_staff + fac.staff_count
  , specialties := fac.specialties.foldl addSpecialty r.specialties
  , has_surgery := r.has_surgery || fac.services.contains "Surgery"
  , has_icu := r.has_icu || fac.services.contains "ICU"
  , has_ct_mri := r.has_ct_mri ||
      (fac.equipment.contains "CT Scanner" || fac.equipment.contains "MRI")
  , has_blood_bank := r.has_blood_bank || fac.services.contains "Blood Bank" }

/-- Add one facility to the region dict: update the existing entry for
its region, or append a new entry (dict insertion order). -/
def addFac : List (String × RegionAgg) → Facility → List (String × RegionAgg)
  | [], fac => [(fac.region, updateAgg (emptyAgg fac.region) fac)]
  | (k, a) :: rest, fac =>
      if k = fac.region then (k, updateAgg a fac) :: rest
      else (k, a) :: addFac rest fac

/-- The `regions` dict after the aggregation loop. -/
def buildRegions (facilities : List Facility) : List (String × RegionAgg) :=
  facilities.foldl addFac []

/-- Rule-table term: `+30` below 100 beds, `+15` below 200. -/
def bedsTerm (d : RegionAgg) : Nat :=
  if d.total_beds < 100 then 30 else if d.total_beds < 200 then 15 else 0

/-- Rule-table term: `+20` below 200 staff, `+10` below 500. -/
def staffTerm (d : RegionAgg) : Nat :=
  if d.total_staff < 200 then 20 else if d.total_staff < 500 then 10 else 0

/-- Rule-table term: `+20` when no facility of the region lists the
`"Surgery"` service. -/
def surgeryTerm (d : RegionAgg) : Nat :=
  if d.has_surgery then 0 else 20

/-- Rule-table term: `+15` when the region has no ICU. -/
def icuTerm (d : RegionAgg) : Nat :=
  if d.has_icu then 0 else 15

/-- Rule-table term: `+10` when the region has no CT scanner or MRI. -/
def ctMriTerm (d : RegionAgg) : Nat :=
  if d.has_ct_mri then 0 else 10

/-- Rule-table term: `+5` when the region has no blood bank. -/
def bloodBankTerm (d : RegionAgg) : Nat :=
  if d.has_blood_bank then 0 else 5

/-- Rule-table term: `+10` below three distinct specialties. -/
def specialtiesTerm (d : RegionAgg) : Nat :=
  if d.specialties.length < 3 then 10 else 0

/-- The unclamped desert score of a region
(`server.py`, lines 458-467): the sum of the rule-table terms. -/
def rawScore (d : RegionAgg) : Nat :=
  bedsTerm d + staffTerm d + surgeryTerm d + icuTerm d + ctMriTerm d
    + bloodBankTerm d + specialtiesTerm d

/-- One entry of the endpoint's response (`server.py`, lines 469-473). -/
structure DesertEntry where
  region : String
  facilities : List String
  total_beds : Nat
  total_staff : Nat
  specialties : List String
  has_surgery : Bool
  has_icu : Bool
  has_ct_mri : Bool
  has_blood_bank : Bool
  desert_score : Nat
  is_desert : Bool
  severity : String
deriving Repr, DecidableEq

/-- Score and label one region: the stored `desert_score` is the raw
score clamped by `min(score, 100)`; `is_desert` and `severity` are
thresholds on the raw score. -/
def scoreRegion (d : RegionAgg) : DesertEntry :=
  { region := d.region
  , facilities := d.facilities
  , total_beds := d.total_beds
  , total_staff := d.total_staff
  , specialties := d.specialties
  , has_surgery := d.has_surgery
  , has_icu := d.has_icu
  , has_ct_mri := d.has_ct_mri
  , has_blood_bank := d.has_blood_bank
  , desert_score := min (rawScore d) 100
  , is_desert := decide (40 ≤ rawScore d)
  , severity := if 60 ≤ rawScore d then "Critical"
      else if 40 ≤ rawScore d then "Moderate" else "Adequate" }

/-- Descending order on desert score (Python's stable
`sort(key=..., reverse=True)`). -/
def desertGe (a b : DesertEntry) : Prop := b.desert_score ≤ a.desert_score

instance : DecidableRel desertGe :=
  fun a b => inferInstanceAs (Decidable (b.desert_score ≤ a.desert_score))

instance : IsTotal DesertEntry desertGe :=
  ⟨fun a b => Nat.le_total b.desert_score a.desert_score⟩

instance : IsTrans DesertEntry desertGe :=
  ⟨fun _ _ _ hab hbc => le_trans hbc hab⟩

/-- `GET /api/analysis/medical-deserts` (`server.py`, lines 427-476). -/
def get_medical_deserts (facilities : List Facility) : List DesertEntry :=
  (((buildRegions facilities).map (fun p => p.2)).map scoreRegion).insertionSort desertGe

lemma lookup_addFac_self (acc : List (String × RegionAgg)) (fac : Facility) :
    (addFac acc fac).lookup fac.region =
      some (updateAgg ((acc.lookup fac.region).getD (emptyAgg fac.region)) fac) := by
  induction acc with
  | nil => simp [addFac]
  | cons p rest ih =>
      obtain ⟨k, a⟩ := p
      by_cases hk : k = fac.region
      · subst hk
        simp [addFac, List.lookup]
      · have hb : (fac.region == k) = false := by
          simp [Ne.symm hk]
        simp [addFac, hk, List.lookup, hb, ih]

lemma lookup_addFac_other (acc : List (String × RegionAgg)) (fac : Facility)
    (r : String) (h : r ≠ fac.region) :
    (addFac acc fac).lookup r = acc.lookup r := by
  have hb : (r == fac.region) = false := by simp [h]
  induction acc with
  | nil => simp [addFac, List.lookup, hb]
  | cons p rest ih =>
      obtain ⟨k, a⟩ := p
      by_cases hk : k = fac.region
      · subst hk
        simp [addFac, List.lookup, hb]
      · simp [addFac, hk, List.lookup, ih]

lemma lookup_foldl_surgery (fs : List Facility) (r : String) :
    ∀ (acc : List (String × RegionAgg)) (a : RegionAgg),
    (∀ f ∈ fs, f.region = r → "Surgery" ∉ f.services) →
    (∀ p : RegionAgg, acc.lookup r = some p → p.has_surgery = false) →
    (List.foldl addFac acc fs).lookup r = some a →
    a.has_surgery = false := by
  induction fs with
  | nil =>
      intro acc a _ hacc hl
      exact hacc a hl
  | cons f rest ih =>
      intro acc a hns hacc hl
      refine ih (addFac acc f) a (fun g hg hgr => hns g (List.mem_cons_of_mem f hg) hgr) ?_ hl
      intro p hp
      by_cases hf : f.region = r
      · rw [← hf] at hp
        rw [lookup_addFac_self] at hp
        have hsurg : "Surgery" ∉ f.services :=
          hns f (List.mem_cons_self f rest) hf
        cases hq : acc.lookup f.region with
        | none =>
            rw [hq] at hp
            cases hp
            simp [updateAgg, emptyAgg, hsurg]
        | some q =>
            rw [hq] at hp
            cases hp
            have hqs : q.has_surgery = false := hacc q (hf ▸ hq)
            simp [updateAgg, hqs, hsurg]
      · rw [lookup_addFac_other acc f r (fun hh => hf hh.symm)] at hp
        exact hacc p hp

lemma lookup_foldl_region (fs : List Facility) (r : String) :
    ∀ (acc : List (String × RegionAgg)) (a : RegionAgg),
    (∀ p : RegionAgg, acc.lookup r = some p → p.region = r) →
    (List.foldl addFac acc fs).lookup r = some a →
    a.region = r := by
  induction fs with
  | nil =>
      intro acc a hacc hl
      exact hacc a hl
  | cons f rest ih =>
      intro acc a hacc hl
      refine ih (addFac acc f) a ?_ hl
      intro p hp
      by_cases hf : f.region = r
      · rw [← hf] at hp
        rw [lookup_addFac_self] at hp
        cases hq : acc.lookup f.region with
        | none =>
            rw [hq] at hp
            cases hp
            simp [updateAgg, emptyAgg, hf]
        | some q =>
            rw [hq] at hp
            cases hp
            have hqr : q.region = r := hacc q (hf ▸ hq)
            simp [updateAgg, hqr]
      · rw [lookup_addFac_other acc f r (fun hh => hf hh.symm)] at hp
        exact hacc p hp

lemma mem_snd_of_lookup :
    ∀ (l : List (String × RegionAgg)) (r : String) (a : RegionAgg),
    l.lookup r = some a → a ∈ l.map (fun p => p.2) := by
  intro l
  induction l with
  | nil => intro r a h; cases h
  | cons p rest ih =>
      intro r a h
      obtain ⟨k, b⟩ := p
      cases hbe : r == k with
      | true =>
          simp only [List.lookup, hbe] at h
          cases h
          exact List.mem_cons_self _ _
      | false =>
          simp only [List.lookup, hbe] at h
          exact List.mem_cons_of_mem _ (ih r a h)

/-- The spec's test facility: `"Test Clinic"`, 10 beds, no `"Surgery"`
service. -/
def testClinic : Facility :=
  { name := "Test Clinic", region := "TestRegion", beds := 10, staff_count := 5
  , specialties := [], equipment := [], services := ["Laboratory"] }

/-- C4: the desert analysis is deterministic (it is a pure function of
the facility list), every entry's `desert_score` lies in `[0, 100]`
(scores are naturals, clamped by `min(score, 100)`), and the severity
label follows the fixed thresholds on the stored score. -/
theorem c4_deserts_deterministic_bounded_labelled (facilities : List Facility) :
    get_medical_deserts facilities = get_medical_deserts facilities ∧
    (∀ d ∈ get_medical_deserts facilities,
      d.desert_score ≤ 100 ∧
      d.severity = (if 60 ≤ d.desert_score then "Critical"
        else if 40 ≤ d.desert_score then "Moderate" else "Adequate")) := by
  refine ⟨rfl, ?_⟩
  intro d hd
  have hd2 : d ∈ ((buildRegions facilities).map (fun p => p.2)).map scoreRegion :=
    (List.perm_insertionSort desertGe _).subset hd
  obtain ⟨a, _, rfl⟩ := List.mem_map.mp hd2
  refine ⟨min_le_right _ _, ?_⟩
  show (if 60 ≤ rawScore a then "Critical"
      else if 40 ≤ rawScore a then "Moderate" else "Adequate")
    = (if 60 ≤ min (rawScore a) 100 then "Critical"
      else if 40 ≤ min (rawScore a) 100 then "Moderate" else "Adequate")
  split_ifs <;> first | rfl | omega

/-- Witness for C4: the single-facility corpus of the spec's test
clinic; its region scores at most 100. -/
theorem c4_witness :
    (scoreRegion (updateAgg (emptyAgg "TestRegion") testClinic)).desert_score ≤ 100 :=
  ((c4_deserts_deterministic_bounded_labelled [testClinic]).2
    (scoreRegion (updateAgg (emptyAgg "TestRegion") testClinic)) (by decide)).1

/-- C9: if no facility of region `r` lists the `"Surgery"` service,
then the aggregated entry for `r` has `has_surgery = false`, that
factor contributes exactly `+20` to the region's raw desert score
(flipping the flag lowers the score by exactly 20), and the scored
entry appears in the analysis result. -/
theorem c9_missing_surgery_contributes_20 (fs : List Facility) (r : String)
    (a : RegionAgg)
    (hns : ∀ f ∈ fs, f.region = r → "Surgery" ∉ f.services)
    (hlook : (buildRegions fs).lookup r = some a) :
    a.has_surgery = false ∧ a.region = r ∧
    rawScore a = rawScore { a with has_surgery := true } + 20 ∧
    scoreRegion a ∈ get_medical_deserts fs := by
  have hsurg : a.has_surgery = false :=
    lookup_foldl_surgery fs r [] a hns (fun p hp => by simp at hp) hlook
  have hreg : a.region = r :=
    lookup_foldl_region fs r [] a (fun p hp => by simp at hp) hlook
  refine ⟨hsurg, hreg, ?_, ?_⟩
  · have h1 : surgeryTerm a = 20 := by simp [surgeryTerm, hsurg]
    have h2 : surgeryTerm { a with has_surgery := true } = 0 := rfl
    have hb : bedsTerm { a with has_surgery := true } = bedsTerm a := rfl
    have hs : staffTerm { a with has_surgery := true } = staffTerm a := rfl
    have hi : icuTerm { a with has_surgery := true } = icuTerm a := rfl
    have hc : ctMriTerm { a with has_surgery := true } = ctMriTerm a := rfl
    have hbb : bloodBankTerm { a with has_surgery := true } = bloodBankTerm a := rfl
    have hsp : specialtiesTerm { a with has_surgery := true } = specialtiesTerm a := rfl
    simp only [rawScore, h1, h2, hb, hs, hi, hc, hbb, hsp]
    omega
  · have ha : a ∈ (buildRegions fs).map (fun p => p.2) :=
      mem_snd_of_lookup _ _ _ hlook
    exact ((List.perm_insertionSort desertGe _).mem_iff).mpr
      (List.mem_map_of_mem scoreRegion ha)

/-- Witness for C9: the test-clinic corpus; its region's aggregate has
`has_surgery = false`. -/
theorem c9_witness :
    (updateAgg (emptyAgg "TestRegion") testClinic).has_surgery = false :=
  (c9_missing_surgery_contributes_20 [testClinic] "TestRegion"
    (updateAgg (emptyAgg "TestRegion") testClinic) (by decide) (by decide)).1

/-! ## text2sql endpoint (`server.py`, lines 712-773)

`POST /api/text2sql` asks the LLM for a JSON query specification,
parses it with `json.loads`, and executes it against the `facilities`
collection.  The LLM output is modelled post-`json.loads` as an
`Option Json` (`none` = `json.JSONDecodeError`); the untyped Python
accesses on the decoded value (`query_spec.get(...)`, `min(limit, 50)`,
`sort_spec.items()`, the pydantic `str` field, the pymongo mapping
filter and `to_list` length check) raise on ill-shaped values, which
the outer `except Exception` turns into HTTP 500; only the decode
error is turned into HTTP 422.  The MongoDB query itself is an
abstract `DbQuery` function from (filter, projection, sort) to the
cursor's row stream. -/

/-- A JSON value as returned by `json.loads` (numbers restricted to
the integers that appear in query specifications). -/
inductive Json where
  | null
  | bool (b : Bool)
  | num (n : Int)
  | str (s : String)
  | arr (xs : List Json)
  | obj (kvs : List (String × Json))

/-- A raised Python exception: the `json.JSONDecodeError` caught
specially by the endpoint, or any other error (attribute/type/value
errors from using an ill-shaped specification). -/
inductive PyErr where
  | jsonDecode
  | typeError (what : String)
deriving Repr, DecidableEq

/-- An HTTP error response (`fastapi.HTTPException`). -/
structure HttpError where
  status : Nat
  detail : String
deriving Repr, DecidableEq

/-- The `Text2SQLResponse` pydantic model. -/
structure Text2SQLResponse where
  natural_query : String
  mongo_query : List (String × Json)
  results : List Json
  result_count : Nat
  explanation : String

/-- Python `query_spec.get(key, default)`: raises `AttributeError` when
the decoded value is not a dict. -/
def objGet (j : Json) (key : String) (default : Json) : Except PyErr Json :=
  match j with
  | .obj kvs => .ok ((kvs.lookup key).getD default)
  | _ => .error (.typeError "attribute get")

/-- Python truthiness of a JSON value (`if sort_spec:`). -/
def Json.isTruthy : Json → Bool
  | .null => false
  | .bool b => b
  | .num n => n != 0
  | .str s => !(s == "")
  | .arr xs => !xs.isEmpty
  | .obj kvs => !kvs.isEmpty

/-- The pymongo filter argument must be a mapping; anything else raises
when the cursor is built (`db.facilities.find(mongo_filter, ...)`). -/
def asDict (what : String) : Json → Except PyErr (List (String × Json))
  | .obj kvs => .ok kvs
  | _ => .error (.typeError what)

/-- `if "_id" not in projection: projection["_id"] = 0`
(`server.py`, lines 732-733): item assignment raises on non-dicts. -/
def fixProjection : Json → Except PyErr Json
  | .obj kvs =>
      .ok (.obj (if (kvs.lookup "_id").isSome then kvs else kvs ++ [("_id", Json.num 0)]))
  | _ => .error (.typeError "projection")

/-- `sort_spec = query_spec.get("sort", None); if sort_spec:
cursor.sort(list(sort_spec.items()))` (`server.py`, lines 734-740):
falsy values skip the sort; truthy non-dicts raise on `.items()`. -/
def evalSort : Json → Except PyErr (Option (List (String × Json)))
  | .null => .ok none
  | .obj kvs => .ok (if kvs.isEmpty then none else some kvs)
  | j => if j.isTruthy then .error (.typeError "sort items") else .ok none

/-- `limit = min(query_spec.get("limit", 20), 50)`
(`server.py`, line 735): non-numbers make `min` raise. -/
def evalLimit : Json → Except PyErr Int
  | .num n => .ok (min n 50)
  | _ => .error (.typeError "limit min")

/-- The response model requires `explanation: str`; a non-string makes
the pydantic construction raise. -/
def evalExplanation : Json → Except PyErr String
  | .str s => .ok s
  | _ => .error (.typeError "explanation str")

/-- `await cursor.to_list(limit)`: a negative length raises; otherwise
at most `limit` rows are drawn from the cursor. -/
def toListModel (rows : List Json) (lim : Int) : Except PyErr (List Json) :=
  if lim < 0 then .error (.typeError "to_list length") else .ok (rows.take lim.toNat)

/-- The abstract MongoDB read: from a filter, a projection and an
optional sort specification to the cursor's row stream. -/
def DbQuery : Type :=
  List (String × Json) → Json → Option (List (String × Json)) → List Json

/-- The body of the endpoint's `try` block on a decoded specification
(`server.py`, lines 730-760). -/
def runSpec (q : String) (spec : Json) (db : DbQuery) : Except PyErr Text2SQLResponse := do
  let filterJ ← objGet spec "filter" (.obj [])
  let projJ ← objGet spec "projection" (.obj [("_id", Json.num 0)])
  let proj ← fixProjection projJ
  let sortJ ← objGet spec "sort" .null
  let sortArg ← evalSort sortJ
  let limJ ← objGet spec "limit" (.num 20)
  let lim ← evalLimit limJ
  let expl0 ← objGet spec "explanation" (.str "")
  let filterKvs ← asDict "filter" filterJ
  let results ← toListModel (db filterKvs proj sortArg) lim
  let expl ← evalExplanation expl0
  pure { natural_query := q, mongo_query := filterKvs, results := results
       , result_count := results.length, explanation := expl }

/-- The `try` block including the LLM translation step: a generation
output that `json.loads` rejects raises `JSONDecodeError`. -/
def text2sqlInner (q : String) (parsed : Option Json) (db : DbQuery) :
    Except PyErr Text2SQLResponse :=
  match parsed with
  | none => .error .jsonDecode
  | some spec => runSpec q spec db

/-- The 422 error raised by `except json.JSONDecodeError`
(`server.py`, line 767). -/
def parseFailError : HttpError :=
  { status := 422
  , detail := "Failed to parse LLM response into MongoDB query. Try rephrasing." }

/-- The 500 error raised by `except Exception`
(`server.py`, line 773). -/
def serverError (m : String) : HttpError :=
  { status := 500, detail := "Text2SQL error: " ++ m }

/-- `POST /api/text2sql` (`server.py`, lines 712-773). -/
def text2sql_endpoint (q : String) (parsed : Option Json) (db : DbQuery) :
    Except HttpError Text2SQLResponse :=
  match text2sqlInner q parsed db with
  | .ok r => .ok r
  | .error .jsonDecode => .error parseFailError
  | .error (.typeError m) => .error (serverError m)

/-- The cursor of an empty collection. -/
def dbEmpty : DbQuery := fun _ _ _ => []

lemma exceptBind_ok {ε α β : Type _} (x : Except ε α) (f : α → Except ε β) (b : β)
    (h : (x >>= f) = .ok b) : ∃ a, x = .ok a ∧ f a = .ok b := by
  cases x with
  | ok a => exact ⟨a, rfl, h⟩
  | error e => simp [Bind.bind, Except.bind] at h

/-- C7 counterexample: the generation step can produce output that is
valid JSON yet cannot be used as a filter/sort/limit/projection
specification — a JSON array such as `[]` has no `.get`, so the code
raises `AttributeError` inside the `try` block and the endpoint
surfaces HTTP 500 (`"Text2SQL error: ..."`), not the claimed 422. -/
theorem c7_counterexample :
    text2sql_endpoint "list facilities" (some (Json.arr [])) dbEmpty =
      Except.error (serverError "attribute get") ∧
    (serverError "attribute get").status = 500 ∧
    ((serverError "attribute get").status = 422 → False) :=
  ⟨rfl, rfl, by decide⟩

/-- C7 (amended): only a generation output that `json.loads` rejects is
surfaced as HTTP 422 with the retry suggestion; output that decodes to
JSON but is not an object is surfaced as an HTTP 500 server error. -/
theorem c7_decode_failure_422 (q : String) (db : DbQuery) (j : Json) :
    text2sql_endpoint q none db = Except.error parseFailError ∧
    ((∀ kvs, j ≠ Json.obj kvs) →
      ∃ m, text2sql_endpoint q (some j) db = Except.error (serverError m)) := by
  refine ⟨rfl, ?_⟩
  intro hobj
  cases j with
  | obj kvs => exact absurd rfl (hobj kvs)
  | null => exact ⟨"attribute get", rfl⟩
  | bool b => exact ⟨"attribute get", rfl⟩
  | num n => exact ⟨"attribute get", rfl⟩
  | str s => exact ⟨"attribute get", rfl⟩
  | arr xs => exact ⟨"attribute get", rfl⟩

/-- Witness for the amended C7 at concrete inputs: an undecodable
output yields the 422, and the decodable-but-unusable `null` yields a
500. -/
theorem c7_witness :
    text2sql_endpoint "nq" none dbEmpty = Except.error parseFailError ∧
    ∃ m, text2sql_endpoint "nq" (some Json.null) dbEmpty = Except.error (serverError m) :=
  ⟨(c7_decode_failure_422 "nq" dbEmpty Json.null).1,
   (c7_decode_failure_422 "nq" dbEmpty Json.null).2 (fun kvs h => by cases h)⟩

/-- C10: a successful text2sql run returns `result_count` equal to the
length of `results`, never more than 50 rows (the limit is
`min(requested, 50)`), at most 20 rows when the specification requests
no limit (the default), and at most the requested limit otherwise
(which is then necessarily non-negative). -/
theorem c10_limit_capped (q : String) (parsed : Option Json) (db : DbQuery)
    (resp : Text2SQLResponse)
    (h : text2sql_endpoint q parsed db = Except.ok resp) :
    resp.result_count = resp.results.length ∧
    resp.results.length ≤ 50 ∧
    (∀ kvs, parsed = some (Json.obj kvs) → kvs.lookup "limit" = none →
      resp.results.length ≤ 20) ∧
    (∀ kvs n, parsed = some (Json.obj kvs) → kvs.lookup "limit" = some (Json.num n) →
      (resp.results.length : Int) ≤ n ∧ 0 ≤ n) := by
  have hin : text2sqlInner q parsed db = Except.ok resp := by
    unfold text2sql_endpoint at h
    split at h
    · rename_i r hr
      cases h
      exact hr
    · exact absurd h (by simp)
    · exact absurd h (by simp)
  cases hp : parsed with
  | none => rw [hp] at hin; exact absurd hin (by simp [text2sqlInner])
  | some spec =>
  rw [hp] at hin
  unfold text2sqlInner at hin
  unfold runSpec at hin
  obtain ⟨filterJ, hf, hin⟩ := exceptBind_ok _ _ _ hin
  obtain ⟨projJ, hpj, hin⟩ := exceptBind_ok _ _ _ hin
  obtain ⟨proj, hpr, hin⟩ := exceptBind_ok _ _ _ hin
  obtain ⟨sortJ, hsj, hin⟩ := exceptBind_ok _ _ _ hin
  obtain ⟨sortArg, hsa, hin⟩ := exceptBind_ok _ _ _ hin
  obtain ⟨limJ, hlj, hin⟩ := exceptBind_ok _ _ _ hin
  obtain ⟨lim, hl, hin⟩ := exceptBind_ok _ _ _ hin
  obtain ⟨expl0, he0, hin⟩ := exceptBind_ok _ _ _ hin
  obtain ⟨filterKvs, hfk, hin⟩ := exceptBind_ok _ _ _ hin
  obtain ⟨results, hres, hin⟩ := exceptBind_ok _ _ _ hin
  obtain ⟨expl, hex, hin⟩ := exceptBind_ok _ _ _ hin
  simp only [pure, Except.pure] at hin
  injection hin with hin
  subst hin
  have hlimit : ¬ lim < 0 ∧ results = (db filterKvs proj sortArg).take lim.toNat := by
    unfold toListModel at hres
    split at hres
    · exact absurd hres (by simp)
    · rename_i hneg
      cases hres
      exact ⟨hneg, rfl⟩
  have hlen : results.length ≤ lim.toNat := by
    rw [hlimit.2]
    exact List.length_take_le _ _
  have hlim50 : lim ≤ 50 := by
    cases limJ with
    | num n =>
        simp only [evalLimit] at hl
        injection hl with hl
        rw [← hl]
        exact min_le_right _ _
    | null => simp [evalLimit] at hl
    | bool b => simp [evalLimit] at hl
    | str s => simp [evalLimit] at hl
    | arr xs => simp [evalLimit] at hl
    | obj kvs => simp [evalLimit] at hl
  refine ⟨rfl, ?_, ?_, ?_⟩
  · show results.length ≤ 50
    have := hlimit.1
    omega
  · intro kvs hk hnone
    injection hk with hk
    subst hk
    simp only [objGet, hnone, Option.getD] at hlj
    injection hlj with hlj
    rw [← hlj] at hl
    simp only [evalLimit] at hl
    injection hl with hl
    show results.length ≤ 20
    have h20 : lim ≤ 20 := by
      rw [← hl]
      exact min_le_left _ _
    have := hlimit.1
    omega
  · intro kvs n hk hsome
    injection hk with hk
    subst hk
    simp only [objGet, hsome, Option.getD] at hlj
    injection hlj with hlj
    rw [← hlj] at hl
    simp only [evalLimit] at hl
    injection hl with hl
    have hn : lim ≤ n := by
      rw [← hl]
      exact min_le_left _ _
    have := hlimit.1
    constructor
    · show (results.length : Int) ≤ n
      omega
    · omega

/-- The concrete response of an empty specification over an empty
collection. -/
def emptyResp : Text2SQLResponse :=
  { natural_query := "nq", mongo_query := [], results := []
  , result_count := 0, explanation := "" }

/-- Witness for C10: the empty specification requests no limit, so the
run is capped at the default 20. -/
theorem c10_witness : emptyResp.results.length ≤ 20 :=
  (c10_limit_capped "nq" (some (Json.obj [])) dbEmpty emptyResp rfl).2.2.1 [] rfl rfl

end VFServer
